import Mathlib

/-!
Shallow embedding of the MinutesGenerator repository's OAuth-backed file
acquisition service (`src/google_drive_service.py`) and staged pipeline
orchestrator (`src/audio_processor.py`).

Filesystem state is carried explicitly: the persisted token file is an
`Option FileContent` (`none` when `token.pickle` is absent; `FileContent.corrupt`
when `pickle.load` on it raises). The process-wide `self.oauth_states` dict is
modelled by the `Finset String` of its keys (every stored value is `True`).
Outcomes of external SDK calls (token refresh, service build, code exchange,
Drive queries, transcription, completion) are inputs of type `Except`/`Option`,
so a raised SDK exception is an explicit `.error` value; Python `try/except`
blocks become matches on those values. A function that can itself raise an
exception to its caller returns `Except String _`.
-/

namespace MinutesGen

/-- Python truthiness of an optional string (`if s:`): `None` and `""` are falsy. -/
def pyTruthy : Option String → Bool
  | none => false
  | some s => s != ""

/-- The fields of a `google.oauth2.credentials.Credentials` object that the
repository reads: `creds.valid`, `creds.expired`, `creds.refresh_token`
(truthiness of the refresh token). -/
structure Creds where
  valid : Bool
  expired : Bool
  refreshToken : Bool
deriving DecidableEq

/-- Content of the persisted `token.pickle` file: either a pickled credentials
object, or bytes on which `pickle.load` raises (with message `msg`). -/
inductive FileContent where
  | creds (c : Creds)
  | corrupt (msg : String)
deriving DecidableEq

/-- Outcome of `get_service` when it returns normally: either a built Drive
service (`service, None`) or `(None, msg)`. -/
inductive ServiceOutcome where
  | built
  | failed (msg : String)
deriving DecidableEq

/-- External-call outcomes used by `get_service`: `creds.refresh(Request())`
and `build("drive", "v3", ...)`. -/
structure GetServiceEnv where
  refresh : Creds → Except String Creds
  buildDrive : Except String Unit

/-- Embedding of `GoogleDriveService.get_service` (google_drive_service.py lines 31-60).
Loads the token file, refreshes expired-but-refreshable credentials (re-saving
the file), then builds the Drive service. `pickle.load` on a corrupt file is
NOT inside a `try`, so it propagates: that is the outer `Except.error`. The
returned pair is the normal result together with the token file after the call. -/
def get_service (tokenFile : Option FileContent) (env : GetServiceEnv) :
    Except String (ServiceOutcome × Option FileContent) :=
  match tokenFile with
  | some (.corrupt msg) => .error msg
  | some (.creds c) =>
    if c.valid then
      match env.buildDrive with
      | .ok _ => .ok (.built, tokenFile)
      | .error e => .ok (.failed ("Error creating Google Drive service: " ++ e), tokenFile)
    else if c.expired && c.refreshToken then
      match env.refresh c with
      | .error e => .ok (.failed ("Error refreshing credentials: " ++ e), tokenFile)
      | .ok c' =>
        match env.buildDrive with
        | .ok _ => .ok (.built, some (.creds c'))
        | .error e => .ok (.failed ("Error creating Google Drive service: " ++ e), some (.creds c'))
    else
      .ok (.failed "Please authorize Google Drive access first", tokenFile)
  | none => .ok (.failed "Please authorize Google Drive access first", tokenFile)

/-- Embedding of `GoogleDriveService.check_initial_auth_status` (lines 115-127). The whole
body sits in `try/except`, so a deserialization error becomes the error status
string rather than an exception. -/
def check_initial_auth_status : Option FileContent → String
  | some (.corrupt msg) => "❌ Error checking authorization status: " ++ msg
  | some (.creds c) =>
    if c.valid then "✅ Google Drive already authorized and ready to use!"
    else "🔐 Google Drive not authorized. Click 'Authorize Google Drive' to get started."
  | none => "🔐 Google Drive not authorized. Click 'Authorize Google Drive' to get started."

/-- The fixed message returned by `start_oauth_flow` once the authorization URL
has been opened (line 94; the f-string has no placeholders). -/
def authStartedMsg : String :=
  "🔗 Authorization opened in your browser!\n\nComplete the authorization and you'll be automatically redirected back to the app.\n\n⚠️ If you get an 'access_denied' error:\n1. Go to Google Cloud Console → OAuth consent screen\n2. Add your email to 'Test users' section\n3. Or publish the app to make it available to all users"

/-- The branch of `start_oauth_flow` past the already-authorized check: build
the `Flow`, generate `state`, build the URL (all external steps folded into
`flowResult`; a raised exception there is caught by the method's `try`), then
register the state (`self.oauth_states[state] = True`). `newState` is the value
`secrets.token_urlsafe(32)` returned in this call. -/
def startFresh (flowResult : Except String Unit) (newState : String)
    (states : Finset String) : String × Finset String :=
  match flowResult with
  | .error e => ("❌ Error starting authorization: " ++ e, states)
  | .ok _ => (authStartedMsg, insert newState states)

/-- Embedding of `GoogleDriveService.start_oauth_flow` (lines 62-97). `clientId` and
`clientSecret` are `os.getenv` results (`none` when unset); `if not ...` is
Python truthiness. Reading a corrupt token file raises inside the method's
`try`, yielding the generic start error. -/
def start_oauth_flow (clientId clientSecret : Option String)
    (tokenFile : Option FileContent) (flowResult : Except String Unit)
    (newState : String) (states : Finset String) : String × Finset String :=
  if !pyTruthy clientId || !pyTruthy clientSecret then
    ("❌ Google OAuth credentials not found. Please set GOOGLE_CLIENT_ID and GOOGLE_CLIENT_SECRET environment variables.", states)
  else
    match tokenFile with
    | some (.corrupt msg) => ("❌ Error starting authorization: " ++ msg, states)
    | some (.creds c) =>
      if c.valid then ("✅ Google Drive already authorized and ready to use!", states)
      else startFresh flowResult newState states
    | none => startFresh flowResult newState states

/-- Embedding of `GoogleDriveService.reset_oauth` (lines 99-113): remove the token file if
present, clear `self.oauth_states`, report success. Returns
`(message, token file after, states after)`. -/
def reset_oauth (tokenFile : Option FileContent) (_states : Finset String) :
    String × Option FileContent × Finset String :=
  ("✅ Google Drive authorization reset successfully! You can now re-authorize with a fresh token.",
   if tokenFile.isSome then none else tokenFile, ∅)

/-- Result page of the OAuth callback route: `_create_success_html()` or
`_create_error_html(msg)` (only the embedded message distinguishes error pages). -/
inductive CallbackResult where
  | successHtml
  | errorHtml (msg : String)
deriving DecidableEq

/-- Embedding of `GoogleDriveService.handle_oauth_callback` (lines 129-167). `code`, `state`,
`error` are `request.query_params.get(...)` results; the `if error:` and
`if not code or not state:` tests are Python truthiness. `exchange` folds the
exchange-side `Flow` construction and `flow.fetch_token(code)` into one
external call whose raised exception is caught by the method's `try/except`
(the "Authorization error:" page). On success the credentials are pickled to
the token file and the state is deleted from `self.oauth_states`. Returns
`(page, states after, token file after)`. -/
def handle_oauth_callback (code state error : Option String)
    (states : Finset String) (tokenFile : Option FileContent)
    (exchange : String → Except String Creds) :
    CallbackResult × Finset String × Option FileContent :=
  if pyTruthy error then
    (.errorHtml ("Authorization failed: " ++ error.getD ""), states, tokenFile)
  else if !pyTruthy code || !pyTruthy state then
    (.errorHtml "Invalid authorization response: Missing authorization code or state parameter.", states, tokenFile)
  else if state.getD "" ∈ states then
    match exchange (code.getD "") with
    | .error e => (.errorHtml ("Authorization error: " ++ e), states, tokenFile)
    | .ok c => (.successHtml, states.erase (state.getD ""), some (.creds c))
  else
    (.errorHtml "Invalid state: Authorization state mismatch. Please try again.", states, tokenFile)

/-! ## Pipeline orchestrator (`src/audio_processor.py`) -/

/-- The suffix of `AudioProcessor.process_meeting_audio` once a local audio
path is in hand (lines 59-102): stat the file, open it, transcribe, then
generate minutes. Each external step is an input; a raised exception is caught
by the generator's outer `try/except`, which yields the `"❌ Error: "` pair and
ends the stream. Returns the list of `(transcription_status, meeting_minutes)`
pairs yielded from this point on. `progress_callback` calls are pure side
effects on the UI and carry no data dependence, so they are not modelled. -/
def transcribeAndSummarize (path : String)
    (getsize : String → Except String Nat)
    (openFile : String → Except String Unit)
    (transcribe : Except String String)
    (genMinutes : String → Except String String) : List (String × String) :=
  match getsize path with
  | .error e => [("❌ Error: " ++ e, "")]
  | .ok _ =>
    ("📁 File loaded successfully", "") ::
    ("🎙️ Starting audio transcription...", "") ::
    match openFile path with
    | .error e => [("❌ Error: " ++ e, "")]
    | .ok _ =>
      ("🔄 Transcribing audio (this may take a few minutes)...", "") ::
      match transcribe with
      | .error e => [("❌ Error: " ++ e, "")]
      | .ok t =>
        (t, "") ::
        (t ++ "\n\n🤖 Generating meeting minutes...", "") ::
        match genMinutes t with
        | .error e => [("❌ Error: " ++ e, "")]
        | .ok m =>
          [(t ++ "\n\n📝 Finalizing meeting minutes...", m), (t, m)]

/-- Embedding of `AudioProcessor.process_meeting_audio` (lines 19-102) as the full list of
yielded `(transcription_status, meeting_minutes)` pairs. `download` is the
injected `download_callback` (it returns a `(path or None, message)` pair and
never raises: `download_from_google_drive` catches internally); the
`if audio_file_path is None` test is an `is None` check, while the source
selection tests `if gdrive_file_id: ... elif audio_file:` are truthiness. -/
def process_meeting_audio (audioFile gdriveFileId : Option String)
    (download : String → Option String × String)
    (getsize : String → Except String Nat)
    (openFile : String → Except String Unit)
    (transcribe : Except String String)
    (genMinutes : String → Except String String) : List (String × String) :=
  ("⏳ Initializing...", "") ::
  if pyTruthy gdriveFileId then
    ("📁 Downloading from Google Drive...", "") ::
    match download (gdriveFileId.getD "") with
    | (none, err) => [("❌ Error downloading from Google Drive: " ++ err, "")]
    | (some path, _) =>
      ("📁 Downloaded from Google Drive", "") ::
      transcribeAndSummarize path getsize openFile transcribe genMinutes
  else if pyTruthy audioFile then
    ("📁 Using local file", "") ::
    transcribeAndSummarize (audioFile.getD "") getsize openFile transcribe genMinutes
  else
    [("❌ Please upload an audio file or select one from Google Drive", "")]

/-- The local path the pipeline ends up processing: the download result when a
Drive id is (truthily) given, else the local path, else nothing — mirroring the
`if gdrive_file_id: ... elif audio_file: ... else:` selection. -/
def resolvedPath (audioFile gdriveFileId : Option String)
    (download : String → Option String × String) : Option String :=
  if pyTruthy gdriveFileId then (download (gdriveFileId.getD "")).1
  else if pyTruthy audioFile then audioFile
  else none

/-! ## Drive browsing (`browse_google_drive`, lines 267-358) -/

/-- The fields of a Drive file object that `browse_google_drive` reads. -/
structure DriveFile where
  id : String
  name : String
  mimeType : String
deriving DecidableEq

/-- Inner loop of `browse_google_drive` over one query's result list:
`for file in files: if file["id"] not in seen_ids: append file; add id`.
The accumulator is `(all_audio_files, seen_ids)`. -/
def addQueryFiles : List DriveFile → List DriveFile × List String → List DriveFile × List String
  | [], acc => acc
  | f :: rest, (files, seen) =>
    if f.id ∈ seen then addQueryFiles rest (files, seen)
    else addQueryFiles rest (files ++ [f], f.id :: seen)

/-- One audio query's contribution: a query that raises is skipped
(`except: continue`). -/
def applyQuery (acc : List DriveFile × List String) :
    Except String (List DriveFile) → List DriveFile × List String
  | .error _ => acc
  | .ok fs => addQueryFiles fs acc

/-- The value of `all_audio_files` after the eight audio queries: merged in order,
de-duplicated by id. -/
def collectAudioFiles (queries : List (Except String (List DriveFile))) : List DriveFile :=
  (queries.foldl applyQuery ([], [])).1

/-- Embedding of `mime_type.split("/")[0] if "/" in mime_type else "unknown"`. -/
def baseType (m : String) : String :=
  if (m.splitOn "/").length ≥ 2 then (m.splitOn "/").headD "" else "unknown"

/-- Embedding of `file_types[base_type] = file_types.get(base_type, 0) + 1` on a dict in
insertion order. -/
def bumpType : List (String × Nat) → String → List (String × Nat)
  | [], t => [(t, 1)]
  | (k, n) :: rest, t =>
    if k = t then (k, n + 1) :: rest else (k, n) :: bumpType rest t

/-- The `file_types` tally over a list of base types. -/
def countTypes (ts : List String) : List (String × Nat) :=
  ts.foldl bumpType []

/-- The join of the per-category counts (`type_summary`) over the tally. -/
def typeSummary (l : List (String × Nat)) : String :=
  String.intercalate ", " (l.map (fun p => toString p.2 ++ " " ++ p.1))

/-- Embedding of `GoogleDriveService.browse_google_drive` (lines 267-358). `broadProbe` is
the `trashed=false` probe (pageSize 5), `queries` the eight audio-filtered
queries, `pathOf` the `get_file_path` resolution (which never raises: it has
its own bare `except` fallback). An exception raised by `get_service` (corrupt
token pickle) is caught by the method's outer `try`. Returns
`(file_options, status_message)`. -/
def browse_google_drive (tokenFile : Option FileContent) (env : GetServiceEnv)
    (broadProbe : Except String (List DriveFile))
    (queries : List (Except String (List DriveFile)))
    (pathOf : String → String → String) : List (String × String) × String :=
  match get_service tokenFile env with
  | .error e => ([], "❌ Error browsing Google Drive: " ++ e)
  | .ok (.failed e, _) => ([], "❌ " ++ e)
  | .ok (.built, _) =>
    match broadProbe with
    | .error e => ([], "❌ Cannot access Google Drive files: " ++ e)
    | .ok allFiles =>
      if allFiles.isEmpty then ([], "❌ No files found in your Google Drive.")
      else
        let audioFiles := collectAudioFiles queries
        if audioFiles.isEmpty then
          ([], "❌ No audio files found in your Google Drive. Found: " ++
            typeSummary (countTypes ((allFiles.take 10).map (fun f => baseType f.mimeType))) ++
            " files.")
        else
          ((audioFiles.take 20).map
             (fun f => ("🎵 " ++ f.name ++ " - " ++ pathOf f.id f.name, f.id)),
           "✅ Found " ++ toString audioFiles.length ++ " audio files in your Google Drive.")

/-- A `GetServiceEnv` whose external calls all succeed (refresh returns the
credentials unchanged, the Drive service builds). -/
def gsEnvId : GetServiceEnv :=
  ⟨fun c => Except.ok c, Except.ok ()⟩

/-! ## Theorems -/

lemma pyTruthy_some_iff (s : String) : pyTruthy (some s) = true ↔ s ≠ "" := by
  simp [pyTruthy]

/-- C5: with neither a local path nor a remote identifier, the pipeline emits
the initializing pair and then the terminal failure pair, and the run is
independent of every external call (no download, transcription or
summarization request is made). -/
theorem pipeline_no_source_fails (audioFile gdriveFileId : Option String)
    (download download' : String → Option String × String)
    (getsize getsize' : String → Except String Nat)
    (openFile openFile' : String → Except String Unit)
    (transcribe transcribe' : Except String String)
    (genMinutes genMinutes' : String → Except String String)
    (h1 : pyTruthy audioFile = false) (h2 : pyTruthy gdriveFileId = false) :
    process_meeting_audio audioFile gdriveFileId download getsize openFile transcribe genMinutes =
      [("⏳ Initializing...", ""),
       ("❌ Please upload an audio file or select one from Google Drive", "")]
    ∧ process_meeting_audio audioFile gdriveFileId download getsize openFile transcribe genMinutes =
      process_meeting_audio audioFile gdriveFileId download' getsize' openFile' transcribe' genMinutes' := by
  constructor <;> simp [process_meeting_audio, h1, h2]

theorem pipeline_no_source_fails_witness :
    process_meeting_audio none none (fun _ => (none, "")) (fun _ => .ok 0)
        (fun _ => .ok ()) (.ok "t") (fun _ => .ok "m") =
      [("⏳ Initializing...", ""),
       ("❌ Please upload an audio file or select one from Google Drive", "")] :=
  (pipeline_no_source_fails none none (fun _ => (none, "")) (fun _ => (none, ""))
    (fun _ => .ok 0) (fun _ => .ok 0) (fun _ => .ok ()) (fun _ => .ok ())
    (.ok "t") (.ok "t") (fun _ => .ok "m") (fun _ => .ok "m") rfl rfl).1

/-- C10: when a (truthy) remote identifier is supplied, the run is identical
for every value of the local path argument, and it enters the Google Drive
download branch right after initialization. -/
theorem pipeline_remote_precedence (audioFile audioFile' gdriveFileId : Option String)
    (download : String → Option String × String)
    (getsize : String → Except String Nat)
    (openFile : String → Except String Unit)
    (transcribe : Except String String)
    (genMinutes : String → Except String String)
    (h : pyTruthy gdriveFileId = true) :
    process_meeting_audio audioFile gdriveFileId download getsize openFile transcribe genMinutes =
      process_meeting_audio audioFile' gdriveFileId download getsize openFile transcribe genMinutes
    ∧ ∃ rest, process_meeting_audio audioFile gdriveFileId download getsize openFile transcribe genMinutes =
        ("⏳ Initializing...", "") :: ("📁 Downloading from Google Drive...", "") :: rest := by
  constructor
  · simp [process_meeting_audio, h]
  · refine ⟨(match download (gdriveFileId.getD "") with
      | (none, err) => [("❌ Error downloading from Google Drive: " ++ err, "")]
      | (some path, _) => ("📁 Downloaded from Google Drive", "") ::
          transcribeAndSummarize path getsize openFile transcribe genMinutes), ?_⟩
    simp [process_meeting_audio, h]

theorem pipeline_remote_precedence_witness :
    process_meeting_audio (some "local.mp3") (some "gid") (fun _ => (none, "denied"))
        (fun _ => .ok 0) (fun _ => .ok ()) (.ok "t") (fun _ => .ok "m") =
      process_meeting_audio none (some "gid") (fun _ => (none, "denied"))
        (fun _ => .ok 0) (fun _ => .ok ()) (.ok "t") (fun _ => .ok "m") :=
  (pipeline_remote_precedence (some "local.mp3") none (some "gid") _ _ _ _ _ (by decide)).1

/-- C7: when the client credentials are configured and a valid credential
record is already persisted, `start_oauth_flow` returns the already-authorized
message, leaves the pending-state set unchanged, and the result does not
depend on the freshly drawn random state (no new session is created). -/
theorem start_flow_idempotent (clientId clientSecret : Option String) (c : Creds)
    (flowResult : Except String Unit) (newState : String) (states : Finset String)
    (h1 : pyTruthy clientId = true) (h2 : pyTruthy clientSecret = true)
    (hv : c.valid = true) :
    start_oauth_flow clientId clientSecret (some (.creds c)) flowResult newState states =
      ("✅ Google Drive already authorized and ready to use!", states)
    ∧ ∀ newState', start_oauth_flow clientId clientSecret (some (.creds c)) flowResult newState' states =
        start_oauth_flow clientId clientSecret (some (.creds c)) flowResult newState states := by
  constructor
  · simp [start_oauth_flow, h1, h2, hv]
  · intro newState'
    simp [start_oauth_flow, h1, h2, hv]

theorem start_flow_idempotent_witness :
    start_oauth_flow (some "id") (some "secret") (some (.creds ⟨true, false, false⟩))
        (.ok ()) "fresh-state" {"old"} =
      ("✅ Google Drive already authorized and ready to use!", {"old"}) :=
  (start_flow_idempotent (some "id") (some "secret") ⟨true, false, false⟩
    (.ok ()) "fresh-state" {"old"} (by decide) (by decide) rfl).1

/-- C9: `reset_oauth` always returns the success message, removes the token
file and empties the pending-state set, and `check_initial_auth_status` on the
resulting token file reports not-authorized, for every prior state. -/
theorem reset_then_status_unauthorized (tokenFile : Option FileContent)
    (states : Finset String) :
    reset_oauth tokenFile states =
      ("✅ Google Drive authorization reset successfully! You can now re-authorize with a fresh token.",
       none, (∅ : Finset String))
    ∧ check_initial_auth_status (reset_oauth tokenFile states).2.1 =
      "🔐 Google Drive not authorized. Click 'Authorize Google Drive' to get started." := by
  cases tokenFile <;> simp [reset_oauth, check_initial_auth_status]

/-- C1: the CSRF state is single-use. A successful callback requires a
non-empty state currently pending, and consumes it (`st'` and `tf'` are the
pending set and token file after the call); and any callback passing the
error/missing-parameter checks whose state is not pending fails with the
state-mismatch page, leaving the pending set and the token file unchanged. -/
theorem callback_state_single_use (code state error : Option String)
    (states : Finset String) (tokenFile : Option FileContent)
    (exchange : String → Except String Creds)
    (st' : Finset String) (tf' : Option FileContent) :
    (handle_oauth_callback code state error states tokenFile exchange =
        (.successHtml, st', tf') →
      ∃ s, state = some s ∧ s ≠ "" ∧ s ∈ states ∧ st' = states.erase s ∧ s ∉ st')
    ∧ (∀ s, pyTruthy error = false → pyTruthy code = true → state = some s → s ≠ "" →
        s ∉ states →
        handle_oauth_callback code state error states tokenFile exchange =
          (.errorHtml "Invalid state: Authorization state mismatch. Please try again.",
           states, tokenFile)) := by
  constructor
  · intro h
    unfold handle_oauth_callback at h
    split_ifs at h with he hcs hmem
    · simp at h
    · simp at h
    · cases hex : exchange (code.getD "") with
      | error e => rw [hex] at h; simp at h
      | ok c =>
        rw [hex] at h
        simp only [Prod.mk.injEq] at h
        obtain ⟨-, hst, -⟩ := h
        simp only [Bool.or_eq_true, Bool.not_eq_true'] at hcs
        push_neg at hcs
        obtain ⟨-, hs⟩ := hcs
        cases state with
        | none => simp [pyTruthy] at hs
        | some s =>
          have hs' : s ≠ "" := by simpa [pyTruthy] using hs
          refine ⟨s, rfl, hs', ?_, ?_, ?_⟩
          · simpa using hmem
          · simpa using hst.symm
          · rw [← hst]; exact Finset.not_mem_erase s states
    · simp at h
  · intro s he hc hst hs hnot
    subst hst
    have hs' : pyTruthy (some s) = true := (pyTruthy_some_iff s).2 hs
    simp [handle_oauth_callback, he, hc, hs', hnot]

theorem callback_state_single_use_witness :
    handle_oauth_callback (some "c") (some "never-issued") none ∅ none
        (fun _ => Except.error "e") =
      (.errorHtml "Invalid state: Authorization state mismatch. Please try again.",
       (∅ : Finset String), none) :=
  (callback_state_single_use (some "c") (some "never-issued") none ∅ none
    (fun _ => Except.error "e") ∅ none).2 "never-issued" rfl (by decide) rfl
    (by decide) (Finset.not_mem_empty _)

/-- C4 counterexample: the `error` query parameter is present (with value
`""`), yet the callback does not fail with the provider-denied page — with a
valid code and a pending state it completes the exchange, persists
credentials, and consumes the state, because the code tests `if error:`
(Python truthiness), not presence. -/
theorem callback_error_param_counterexample :
    handle_oauth_callback (some "c") (some "s") (some "") {"s"} none
        (fun _ => Except.ok ⟨true, false, true⟩) =
      (.successHtml, (∅ : Finset String), some (.creds ⟨true, false, true⟩)) := by
  decide

/-- C4 (amended): when the `error` query parameter is present with a non-empty
value, the callback fails with the provider-denied page carrying that value,
the pending-state set and token file are unchanged, and the result is
independent of the exchange call (no code exchange is attempted). -/
theorem callback_provider_denied (code state : Option String) (e : String)
    (states : Finset String) (tokenFile : Option FileContent)
    (exchange exchange' : String → Except String Creds) (he : e ≠ "") :
    handle_oauth_callback code state (some e) states tokenFile exchange =
      (.errorHtml ("Authorization failed: " ++ e), states, tokenFile)
    ∧ handle_oauth_callback code state (some e) states tokenFile exchange =
      handle_oauth_callback code state (some e) states tokenFile exchange' := by
  have ht : pyTruthy (some e) = true := (pyTruthy_some_iff e).2 he
  constructor <;> simp [handle_oauth_callback, ht]

theorem callback_provider_denied_witness :
    handle_oauth_callback (some "c") (some "s") (some "access_denied") {"s"} none
        (fun _ => Except.ok ⟨true, false, true⟩) =
      (.errorHtml ("Authorization failed: " ++ "access_denied"), {"s"}, none) :=
  (callback_provider_denied (some "c") (some "s") "access_denied" {"s"} none
    (fun _ => Except.ok ⟨true, false, true⟩) (fun _ => Except.error "x") (by decide)).1

/-- Every run of the post-acquisition stages splits into a prefix whose pairs
all carry empty minutes and a suffix of at most two pairs (the finalizing and
terminal emissions of a successful run). -/
lemma ts_split (path : String) (getsize : String → Except String Nat)
    (openFile : String → Except String Unit) (transcribe : Except String String)
    (genMinutes : String → Except String String) :
    ∃ pre suf, transcribeAndSummarize path getsize openFile transcribe genMinutes = pre ++ suf
      ∧ suf.length ≤ 2 ∧ ∀ p ∈ pre, p.2 = "" := by
  cases hgs : getsize path with
  | error e =>
    exact ⟨[], [("❌ Error: " ++ e, "")], by simp [transcribeAndSummarize, hgs], by simp, by simp⟩
  | ok n =>
    cases hop : openFile path with
    | error e =>
      exact ⟨[("📁 File loaded successfully", ""), ("🎙️ Starting audio transcription...", "")],
        [("❌ Error: " ++ e, "")], by simp [transcribeAndSummarize, hgs, hop], by simp, by decide⟩
    | ok u =>
      cases htr : transcribe with
      | error e =>
        exact ⟨[("📁 File loaded successfully", ""), ("🎙️ Starting audio transcription...", ""),
          ("🔄 Transcribing audio (this may take a few minutes)...", "")],
          [("❌ Error: " ++ e, "")], by simp [transcribeAndSummarize, hgs, hop, htr], by simp,
          by decide⟩
      | ok t =>
        cases hgm : genMinutes t with
        | error e =>
          refine ⟨[("📁 File loaded successfully", ""), ("🎙️ Starting audio transcription...", ""),
            ("🔄 Transcribing audio (this may take a few minutes)...", ""), (t, ""),
            (t ++ "\n\n🤖 Generating meeting minutes...", "")],
            [("❌ Error: " ++ e, "")],
            by simp [transcribeAndSummarize, hgs, hop, htr, hgm], by simp, ?_⟩
          intro p hp
          simp only [List.mem_cons, List.not_mem_nil, or_false] at hp
          rcases hp with rfl | rfl | rfl | rfl | rfl <;> rfl
        | ok m =>
          refine ⟨[("📁 File loaded successfully", ""), ("🎙️ Starting audio transcription...", ""),
            ("🔄 Transcribing audio (this may take a few minutes)...", ""), (t, ""),
            (t ++ "\n\n🤖 Generating meeting minutes...", "")],
            [(t ++ "\n\n📝 Finalizing meeting minutes...", m), (t, m)],
            by simp [transcribeAndSummarize, hgs, hop, htr, hgm], by simp, ?_⟩
          intro p hp
          simp only [List.mem_cons, List.not_mem_nil, or_false] at hp
          rcases hp with rfl | rfl | rfl | rfl | rfl <;> rfl

/-- C2 counterexample: on a successful run, the pair emitted just before the
terminal one (the "Finalizing meeting minutes" emission) already carries the
non-empty minutes document, so not every pre-terminal pair has empty
minutes_text. -/
theorem pipeline_minutes_before_final_counterexample :
    ((process_meeting_audio (some "meeting.mp3") none (fun _ => (none, "unused"))
        (fun _ => Except.ok 1) (fun _ => Except.ok ()) (Except.ok "T")
        (fun _ => Except.ok "M")).dropLast.all (fun p => p.2 == "")) = false := by
  decide

/-- C2 (amended): in every pipeline run, all emitted pairs except at most the
final two carry an empty minutes_text; a non-empty minutes document can appear
only in the last two emissions (the finalizing notice and the terminal pair). -/
theorem pipeline_minutes_only_in_final_two (audioFile gdriveFileId : Option String)
    (download : String → Option String × String)
    (getsize : String → Except String Nat)
    (openFile : String → Except String Unit)
    (transcribe : Except String String)
    (genMinutes : String → Except String String) :
    ∃ pre suf,
      process_meeting_audio audioFile gdriveFileId download getsize openFile transcribe genMinutes =
        pre ++ suf ∧ suf.length ≤ 2 ∧ ∀ p ∈ pre, p.2 = "" := by
  cases hg : pyTruthy gdriveFileId with
  | true =>
    cases hdl : download (gdriveFileId.getD "") with
    | mk pOpt msg =>
      cases pOpt with
      | none =>
        exact ⟨[("⏳ Initializing...", ""), ("📁 Downloading from Google Drive...", "")],
          [("❌ Error downloading from Google Drive: " ++ msg, "")],
          by simp [process_meeting_audio, hg, hdl], by simp, by decide⟩
      | some path =>
        obtain ⟨pre, suf, heq, hlen, hpre⟩ := ts_split path getsize openFile transcribe genMinutes
        refine ⟨("⏳ Initializing...", "") :: ("📁 Downloading from Google Drive...", "") ::
          ("📁 Downloaded from Google Drive", "") :: pre, suf, ?_, hlen, ?_⟩
        · simp [process_meeting_audio, hg, hdl, heq]
        · intro p hp
          rcases List.mem_cons.1 hp with rfl | hp
          · rfl
          rcases List.mem_cons.1 hp with rfl | hp
          · rfl
          rcases List.mem_cons.1 hp with rfl | hp
          · rfl
          exact hpre p hp
  | false =>
    cases ha : pyTruthy audioFile with
    | true =>
      obtain ⟨pre, suf, heq, hlen, hpre⟩ :=
        ts_split (audioFile.getD "") getsize openFile transcribe genMinutes
      refine ⟨("⏳ Initializing...", "") :: ("📁 Using local file", "") :: pre, suf, ?_, hlen, ?_⟩
      · simp [process_meeting_audio, hg, ha, heq]
      · intro p hp
        rcases List.mem_cons.1 hp with rfl | hp
        · rfl
        rcases List.mem_cons.1 hp with rfl | hp
        · rfl
        exact hpre p hp
    | false =>
      exact ⟨[("⏳ Initializing...", ""),
        ("❌ Please upload an audio file or select one from Google Drive", "")], [],
        by simp [process_meeting_audio, hg, ha], by simp, by decide⟩

theorem pipeline_minutes_only_in_final_two_witness :
    ∃ pre suf,
      process_meeting_audio (some "meeting.mp3") none (fun _ => (none, "unused"))
        (fun _ => Except.ok 1) (fun _ => Except.ok ()) (Except.ok "T")
        (fun _ => Except.ok "M") = pre ++ suf ∧ suf.length ≤ 2 ∧ ∀ p ∈ pre, p.2 = "" :=
  pipeline_minutes_only_in_final_two (some "meeting.mp3") none _ _ _ _ _

/-- C6: if the transcription call raises, every run that reaches the
transcription stage (its source resolved, stat and open succeeded) ends with
the terminal failure pair embedding the error message, and the whole output is
independent of the summarization call — the Summarizing stage is never
entered. -/
theorem pipeline_transcription_error_terminal (audioFile gdriveFileId : Option String)
    (download : String → Option String × String)
    (getsize : String → Except String Nat)
    (openFile : String → Except String Unit) (e : String)
    (genMinutes genMinutes' : String → Except String String) (path : String)
    (hp : resolvedPath audioFile gdriveFileId download = some path)
    (hgs : ∃ n, getsize path = Except.ok n)
    (hop : openFile path = Except.ok ()) :
    (process_meeting_audio audioFile gdriveFileId download getsize openFile
        (Except.error e) genMinutes).getLast? = some ("❌ Error: " ++ e, "")
    ∧ process_meeting_audio audioFile gdriveFileId download getsize openFile
        (Except.error e) genMinutes =
      process_meeting_audio audioFile gdriveFileId download getsize openFile
        (Except.error e) genMinutes' := by
  obtain ⟨n, hgs⟩ := hgs
  cases hg : pyTruthy gdriveFileId with
  | true =>
    simp only [resolvedPath, hg, if_true] at hp
    cases hdl : download (gdriveFileId.getD "") with
    | mk pOpt msg =>
      rw [hdl] at hp
      simp only at hp
      subst hp
      have hall : ∀ gm : String → Except String String,
          process_meeting_audio audioFile gdriveFileId download getsize openFile
            (Except.error e) gm =
          [("⏳ Initializing...", ""), ("📁 Downloading from Google Drive...", ""),
           ("📁 Downloaded from Google Drive", ""), ("📁 File loaded successfully", ""),
           ("🎙️ Starting audio transcription...", ""),
           ("🔄 Transcribing audio (this may take a few minutes)...", ""),
           ("❌ Error: " ++ e, "")] := by
        intro gm
        simp [process_meeting_audio, hg, hdl, transcribeAndSummarize, hgs, hop]
      rw [hall genMinutes, hall genMinutes']
      exact ⟨rfl, rfl⟩
  | false =>
    cases ha : pyTruthy audioFile with
    | false => simp [resolvedPath, hg, ha] at hp
    | true =>
      simp [resolvedPath, hg, ha] at hp
      subst hp
      have hall : ∀ gm : String → Except String String,
          process_meeting_audio (some path) gdriveFileId download getsize openFile
            (Except.error e) gm =
          [("⏳ Initializing...", ""), ("📁 Using local file", ""),
           ("📁 File loaded successfully", ""), ("🎙️ Starting audio transcription...", ""),
           ("🔄 Transcribing audio (this may take a few minutes)...", ""),
           ("❌ Error: " ++ e, "")] := by
        intro gm
        simp [process_meeting_audio, hg, ha, transcribeAndSummarize, hgs, hop]
      rw [hall genMinutes, hall genMinutes']
      exact ⟨rfl, rfl⟩

theorem pipeline_transcription_error_terminal_witness :
    (process_meeting_audio (some "m.mp3") none (fun _ => (none, "")) (fun _ => Except.ok 5)
        (fun _ => Except.ok ()) (Except.error "boom") (fun _ => Except.ok "x")).getLast? =
      some ("❌ Error: " ++ "boom", "") :=
  (pipeline_transcription_error_terminal (some "m.mp3") none (fun _ => (none, ""))
    (fun _ => Except.ok 5) (fun _ => Except.ok ()) "boom" (fun _ => Except.ok "x")
    (fun _ => Except.ok "y") "m.mp3" (by decide) ⟨5, rfl⟩ rfl).1

/-- C3 counterexample: a token file that cannot be deserialized is not treated
as absent — `get_service` propagates the `pickle.load` exception to its caller
instead of returning the not-authorized result, and `check_initial_auth_status`
reports it differently from an absent file. -/
theorem load_corrupt_counterexample :
    get_service (some (.corrupt "bad pickle")) gsEnvId = Except.error "bad pickle"
    ∧ check_initial_auth_status (some (.corrupt "bad pickle")) ≠
      check_initial_auth_status none := by
  exact ⟨rfl, by decide⟩

/-- C3 (amended): only an absent token file is loaded softly (reported as
not-authorized by both `get_service` and `check_initial_auth_status`). On an
undeserializable token file, `check_initial_auth_status` catches the failure
and returns an error status string (so it never raises), while `get_service`
propagates the deserialization exception; its in-repo callers catch it at
their own boundary, as `browse_google_drive` shows, so it still does not
escape the service. -/
theorem load_fails_soft_amended (msg : String) (env : GetServiceEnv)
    (broadProbe : Except String (List DriveFile))
    (queries : List (Except String (List DriveFile)))
    (pathOf : String → String → String) :
    get_service none env = Except.ok (.failed "Please authorize Google Drive access first", none)
    ∧ get_service (some (.corrupt msg)) env = Except.error msg
    ∧ check_initial_auth_status (some (.corrupt msg)) =
      "❌ Error checking authorization status: " ++ msg
    ∧ check_initial_auth_status none =
      "🔐 Google Drive not authorized. Click 'Authorize Google Drive' to get started."
    ∧ browse_google_drive (some (.corrupt msg)) env broadProbe queries pathOf =
      ([], "❌ Error browsing Google Drive: " ++ msg) := by
  refine ⟨rfl, rfl, rfl, rfl, ?_⟩
  simp [browse_google_drive, get_service]

lemma string_data_append (a b : String) : (a ++ b).data = a.data ++ b.data := rfl

/-- The empty-store message is never equal to a no-audio-found message,
whatever the category breakdown. -/
lemma storeEmpty_ne_noAudio (s : String) :
    "❌ No files found in your Google Drive." ≠
      "❌ No audio files found in your Google Drive. Found: " ++ s ++ " files." := by
  intro h
  have h2 := congrArg (fun t : String => t.data.take 6) h
  simp only [string_data_append, List.append_assoc] at h2
  rw [List.take_append_of_le_length (by decide)] at h2
  exact absurd h2 (by decide)

/-- The de-duplication invariant of `browse_google_drive`'s merge loop: if
every accumulated file's id is in `seen` and the accumulated ids are distinct,
the same holds after folding in another query result. -/
lemma addQueryFiles_inv (fs : List DriveFile) (files : List DriveFile) (seen : List String)
    (h1 : ∀ f ∈ files, f.id ∈ seen) (h2 : (files.map DriveFile.id).Nodup) :
    (∀ f ∈ (addQueryFiles fs (files, seen)).1, f.id ∈ (addQueryFiles fs (files, seen)).2)
    ∧ ((addQueryFiles fs (files, seen)).1.map DriveFile.id).Nodup := by
  induction fs generalizing files seen with
  | nil => exact ⟨h1, h2⟩
  | cons f rest ih =>
    by_cases hmem : f.id ∈ seen
    · simpa [addQueryFiles, hmem] using ih files seen h1 h2
    · have h1' : ∀ g ∈ files ++ [f], g.id ∈ f.id :: seen := by
        intro g hg
        rcases List.mem_append.1 hg with hg | hg
        · exact List.mem_cons_of_mem _ (h1 g hg)
        · rw [List.mem_singleton.1 hg]
          exact List.mem_cons_self _ _
      have hnotin : f.id ∉ files.map DriveFile.id := by
        intro hc
        rcases List.mem_map.1 hc with ⟨g, hg, hge⟩
        exact hmem (hge ▸ h1 g hg)
      have h2' : ((files ++ [f]).map DriveFile.id).Nodup := by
        rw [List.map_append]
        simp [List.nodup_append, h2, hnotin]
      simpa [addQueryFiles, hmem] using ih (files ++ [f]) (f.id :: seen) h1' h2'

/-- The merged audio-file list of `browse_google_drive` has pairwise-distinct
ids. -/
lemma collectAudioFiles_nodup (queries : List (Except String (List DriveFile))) :
    ((collectAudioFiles queries).map DriveFile.id).Nodup := by
  have h : ∀ (acc : List DriveFile × List String),
      (∀ f ∈ acc.1, f.id ∈ acc.2) → (acc.1.map DriveFile.id).Nodup →
      ((queries.foldl applyQuery acc).1.map DriveFile.id).Nodup := by
    induction queries with
    | nil => intro acc h1 h2; simpa using h2
    | cons q rest ih =>
      intro acc h1 h2
      rw [List.foldl_cons]
      cases q with
      | error e => exact ih acc h1 h2
      | ok fs =>
        obtain ⟨a, b⟩ := acc
        have h' := addQueryFiles_inv fs a b h1 h2
        exact ih _ h'.1 h'.2
  simpa [collectAudioFiles] using h ([], []) (by simp) (by simp)

/-- C8: with an authenticated service, `browse_google_drive` (a) reports the
empty-store message — never a no-audio-found message — when the broad probe
finds no files at all; (b) reports the no-audio message with the coarse
category breakdown when files exist but no audio query matched; and the
selection list is always truncated to at most 20 entries, built from a merged
list whose ids are pairwise distinct. -/
theorem browse_distinguishes_empty_store
    (tokenFile : Option FileContent) (env : GetServiceEnv) (tf' : Option FileContent)
    (broadProbe : Except String (List DriveFile))
    (queries : List (Except String (List DriveFile)))
    (pathOf : String → String → String)
    (hsvc : get_service tokenFile env = Except.ok (.built, tf')) :
    (broadProbe = Except.ok [] →
      browse_google_drive tokenFile env broadProbe queries pathOf =
        ([], "❌ No files found in your Google Drive.")
      ∧ ∀ s, (browse_google_drive tokenFile env broadProbe queries pathOf).2 ≠
          "❌ No audio files found in your Google Drive. Found: " ++ s ++ " files.")
    ∧ (∀ fl, broadProbe = Except.ok fl → fl ≠ [] → collectAudioFiles queries = [] →
        browse_google_drive tokenFile env broadProbe queries pathOf =
          ([], "❌ No audio files found in your Google Drive. Found: " ++
            typeSummary (countTypes ((fl.take 10).map (fun f => baseType f.mimeType))) ++
            " files."))
    ∧ (browse_google_drive tokenFile env broadProbe queries pathOf).1.length ≤ 20
    ∧ ((collectAudioFiles queries).map DriveFile.id).Nodup := by
  refine ⟨?_, ?_, ?_, collectAudioFiles_nodup queries⟩
  · intro hbp
    have hb : browse_google_drive tokenFile env broadProbe queries pathOf =
        ([], "❌ No files found in your Google Drive.") := by
      simp [browse_google_drive, hsvc, hbp]
    exact ⟨hb, fun s => by rw [hb]; exact storeEmpty_ne_noAudio s⟩
  · intro fl hbp hne hna
    have hfl : fl.isEmpty = false := by simpa [List.isEmpty_iff] using hne
    simp [browse_google_drive, hsvc, hbp, hfl, hna]
  · rcases broadProbe with e | fl
    · simp [browse_google_drive, hsvc]
    · rcases hfl : fl.isEmpty with _ | _
      · rcases hna : (collectAudioFiles queries).isEmpty with _ | _
        · simp [browse_google_drive, hsvc, hfl, hna, List.length_take]
        · simp [browse_google_drive, hsvc, hfl, hna]
      · simp [browse_google_drive, hsvc, hfl]

theorem browse_distinguishes_empty_store_witness :
    browse_google_drive (some (.creds ⟨true, false, false⟩)) gsEnvId (Except.ok []) []
        (fun _ n => n) = ([], "❌ No files found in your Google Drive.") :=
  ((browse_distinguishes_empty_store (some (.creds ⟨true, false, false⟩)) gsEnvId
    (some (.creds ⟨true, false, false⟩)) (Except.ok []) [] (fun _ n => n) rfl).1 rfl).1

end MinutesGen
